import Mathlib

/-!
Verification of the announcements router (`src/backend/routers/announcements.py`).

The router is embedded shallowly: the two Mongo collections become an explicit
`ServiceState` (a list of teacher usernames and a list of announcement
documents), each endpoint becomes a pure function from the state and its
request parameters to a response paired with the post-call state, and
`datetime.utcnow()` / the ObjectId generated by `insert_one` become explicit
`now` / `newOid` parameters.

Python's `datetime.fromisoformat` (the external standard library the router
calls) is modelled concretely at second resolution: it accepts
`YYYY-MM-DD`, optionally followed by a single separator character and a time
`HH`, `HH:MM` or `HH:MM:SS`, with calendar and clock range validation.
Fractional seconds and UTC offsets are outside the formats exercised by this
router's specification and are not modelled.
-/

/-- A naive datetime at second resolution, as produced by the modelled
`datetime.fromisoformat`. -/
structure DateTime where
  year : Nat
  month : Nat
  day : Nat
  hour : Nat
  minute : Nat
  second : Nat
deriving DecidableEq, Repr

/-- Mixed-radix key of a datetime.  For datetimes whose fields are in calendar
range (month ≤ 12, day ≤ 31, hour ≤ 23, minute ≤ 59, second ≤ 59) — which is
every datetime the modelled parser produces — comparing keys is exactly the
chronological (field-lexicographic) comparison Python performs. -/
def DateTime.key (d : DateTime) : Nat :=
  ((((d.year * 13 + d.month) * 32 + d.day) * 24 + d.hour) * 60 + d.minute) * 60 + d.second

/-- `a ≤ b` on datetimes (Python `<=`, Mongo `$lte`). -/
def DateTime.leb (a b : DateTime) : Bool :=
  Nat.ble a.key b.key

theorem DateTime.leb_total (a b : DateTime) : a.leb b = true ∨ b.leb a = true := by
  simp only [DateTime.leb, Nat.ble_eq]
  exact Nat.le_total a.key b.key

/-- The numeric value of an ASCII digit, `none` on any other character. -/
def digit? (c : Char) : Option Nat :=
  if c.isDigit then some (c.toNat - 48) else none

/-- Two-digit field of an ISO string. -/
def digit2 (a b : Char) : Option Nat :=
  match digit? a, digit? b with
  | some x, some y => some (10 * x + y)
  | _, _ => none

/-- Four-digit year field of an ISO string. -/
def digit4 (a b c d : Char) : Option Nat :=
  match digit? a, digit? b, digit? c, digit? d with
  | some x, some y, some z, some w => some (1000 * x + 100 * y + 10 * z + w)
  | _, _, _, _ => none

def isLeapYear (y : Nat) : Bool :=
  y % 4 == 0 && (y % 100 != 0 || y % 400 == 0)

def daysInMonth (y m : Nat) : Nat :=
  if m = 2 then (if isLeapYear y then 29 else 28)
  else if m = 4 ∨ m = 6 ∨ m = 9 ∨ m = 11 then 30
  else 31

/-- Parse the leading `YYYY-MM-DD` of an ISO string, validating the calendar
ranges exactly as Python does; returns the field values and the unconsumed
characters. -/
def parseDateChars : List Char → Option (Nat × Nat × Nat × List Char)
  | y1 :: y2 :: y3 :: y4 :: s1 :: m1 :: m2 :: s2 :: d1 :: d2 :: rest =>
    if s1 = '-' ∧ s2 = '-' then
      match digit4 y1 y2 y3 y4, digit2 m1 m2, digit2 d1 d2 with
      | some y, some m, some d =>
        if 1 ≤ y ∧ 1 ≤ m ∧ m ≤ 12 ∧ 1 ≤ d ∧ d ≤ daysInMonth y m then
          some (y, m, d, rest)
        else none
      | _, _, _ => none
    else none
  | _ => none

/-- Parse a time-of-day `HH`, `HH:MM` or `HH:MM:SS`, validating clock ranges. -/
def parseTimeChars : List Char → Option (Nat × Nat × Nat)
  | [h1, h2] =>
    match digit2 h1 h2 with
    | some h => if h ≤ 23 then some (h, 0, 0) else none
    | none => none
  | [h1, h2, c, m1, m2] =>
    if c = ':' then
      match digit2 h1 h2, digit2 m1 m2 with
      | some h, some m => if h ≤ 23 ∧ m ≤ 59 then some (h, m, 0) else none
      | _, _ => none
    else none
  | [h1, h2, c1, m1, m2, c2, s1, s2] =>
    if c1 = ':' ∧ c2 = ':' then
      match digit2 h1 h2, digit2 m1 m2, digit2 s1 s2 with
      | some h, some m, some s =>
        if h ≤ 23 ∧ m ≤ 59 ∧ s ≤ 59 then some (h, m, s) else none
      | _, _, _ => none
    else none
  | _ => none

/-- After the date part: an empty remainder means midnight; otherwise one
separator character (any character, as in Python) followed by a time. -/
def finishDT (y m d : Nat) : List Char → Option DateTime
  | [] => some ⟨y, m, d, 0, 0, 0⟩
  | _ :: ts => (parseTimeChars ts).map fun t => ⟨y, m, d, t.1, t.2.1, t.2.2⟩

/-- The modelled `datetime.fromisoformat`, on character lists. -/
def parseDT (cs : List Char) : Option DateTime :=
  match parseDateChars cs with
  | none => none
  | some (y, m, d, rest) => finishDT y m d rest

/-- A bare calendar date `YYYY-MM-DD` with nothing following; its value is
midnight of that day. -/
def parseDateOnlyChars (cs : List Char) : Option DateTime :=
  match parseDateChars cs with
  | some (y, m, d, []) => some ⟨y, m, d, 0, 0, 0⟩
  | _ => none

/-- The modelled `datetime.fromisoformat` on strings. -/
def fromisoformat (s : String) : Option DateTime :=
  parseDT s.data

/-- `s` parses as a bare calendar date `YYYY-MM-DD` (value: midnight). -/
def parseDateOnly (s : String) : Option DateTime :=
  parseDateOnlyChars s.data

/-- The router's dual parse: `datetime.fromisoformat(s)`, and on failure
`datetime.fromisoformat(s + "T00:00:00")` (lines 78–84, 88–94, 130–137,
141–148 of the router). -/
def parseDateDual (s : String) : Option DateTime :=
  match fromisoformat s with
  | some d => some d
  | none => fromisoformat (s ++ "T00:00:00")

/-- `bson.objectid.ObjectId(s)` on a string succeeds exactly on 24 hexadecimal
characters; any other string raises, which the router turns into
400 "Invalid announcement id". -/
def isValidObjectId (s : String) : Bool :=
  s.length == 24 && s.data.all fun c =>
    c.isDigit || ('a' ≤ c && c ≤ 'f') || ('A' ≤ c && c ≤ 'F')

def pad2 (n : Nat) : String :=
  if n < 10 then "0" ++ toString n else toString n

def pad4 (n : Nat) : String :=
  if n < 10 then "000" ++ toString n
  else if n < 100 then "00" ++ toString n
  else if n < 1000 then "0" ++ toString n
  else toString n

/-- `datetime.isoformat()` at second resolution. -/
def DateTime.isoformat (d : DateTime) : String :=
  pad4 d.year ++ "-" ++ pad2 d.month ++ "-" ++ pad2 d.day ++ "T" ++
    pad2 d.hour ++ ":" ++ pad2 d.minute ++ ":" ++ pad2 d.second

/-- A stored announcement document.  `oid` is the string form of the `_id`
the store assigned at insertion; `start_date` is `none` for a null or absent
stored value. -/
structure AnnouncementDoc where
  oid : String
  message : String
  start_date : Option DateTime
  end_date : DateTime
  created_by : String
  created_at : DateTime
deriving DecidableEq, Repr

/-- The transport representation produced by `_serialize` (router lines
20–28): datetimes render as ISO strings, absent ones as null. -/
structure AnnouncementView where
  id : String
  message : String
  start_date : Option String
  end_date : Option String
  created_by : String
  created_at : Option String
deriving DecidableEq, Repr

/-- `_serialize(doc)`.  On documents this router writes, `end_date` and
`created_at` are always present, so their rendered values are always
`some`. -/
def serialize (doc : AnnouncementDoc) : AnnouncementView :=
  { id := doc.oid
    message := doc.message
    start_date := doc.start_date.map DateTime.isoformat
    end_date := some doc.end_date.isoformat
    created_by := doc.created_by
    created_at := some doc.created_at.isoformat }

/-- The two external collections: teacher usernames (their `_id` keys) and
the announcement documents. -/
structure ServiceState where
  teachers : List String
  announcements : List AnnouncementDoc
deriving DecidableEq, Repr

/-- An HTTPException: status code and detail message. -/
structure HTTPError where
  status : Nat
  detail : String
deriving DecidableEq, Repr

instance {ε α : Type} [DecidableEq ε] [DecidableEq α] : DecidableEq (Except ε α) := fun a b =>
  match a, b with
  | .ok x, .ok y =>
    if h : x = y then .isTrue (h ▸ rfl) else .isFalse fun he => h (Except.ok.inj he)
  | .error x, .error y =>
    if h : x = y then .isTrue (h ▸ rfl) else .isFalse fun he => h (Except.error.inj he)
  | .ok _, .error _ => .isFalse fun he => Except.noConfusion he
  | .error _, .ok _ => .isFalse fun he => Except.noConfusion he

/-- Documents `a` and `b` are in `end_date` order (the Mongo sort key
`[("end_date", 1)]`). -/
def endLe (a b : AnnouncementDoc) : Bool :=
  a.end_date.leb b.end_date

def insertByEnd (x : AnnouncementDoc) : List AnnouncementDoc → List AnnouncementDoc
  | [] => [x]
  | y :: ys => if endLe x y then x :: y :: ys else y :: insertByEnd x ys

/-- The store's ascending sort by `end_date`. -/
def sortByEnd : List AnnouncementDoc → List AnnouncementDoc
  | [] => []
  | x :: xs => insertByEnd x (sortByEnd xs)

/-- The Mongo selection predicate of `get_active_announcements` (router lines
35–42): `end_date >= now` and (`start_date` null/absent or `<= now`). -/
def isActive (now : DateTime) (doc : AnnouncementDoc) : Bool :=
  now.leb doc.end_date &&
    match doc.start_date with
    | none => true
    | some sd => sd.leb now

/-- The document cursor of `GET /announcements`: filter by `isActive`, sort
ascending by `end_date`. -/
def get_active_docs (st : ServiceState) (now : DateTime) : List AnnouncementDoc :=
  sortByEnd (st.announcements.filter (isActive now))

/-- `GET /announcements` (router lines 31–48). -/
def get_active_announcements (st : ServiceState) (now : DateTime) : List AnnouncementView :=
  (get_active_docs st now).map serialize

/-- The document cursor of `GET /announcements/all`: every document, sorted
ascending by `end_date`. -/
def get_all_docs (st : ServiceState) : List AnnouncementDoc :=
  sortByEnd st.announcements

/-- `GET /announcements/all` (router lines 51–62). -/
def get_all_announcements (st : ServiceState) (teacher_username : String) :
    Except HTTPError (List AnnouncementView) :=
  if st.teachers.contains teacher_username then
    .ok ((get_all_docs st).map serialize)
  else
    .error ⟨401, "Invalid teacher credentials"⟩

/-- The `if start_date:` block of `create_announcement` (router lines 86–94).
Python truthiness makes both an absent body field and an explicit empty
string skip the parse and leave the stored value null. -/
def parseStartCreate : Option String → Except HTTPError (Option DateTime)
  | none => .ok none
  | some s =>
    if s = "" then .ok none
    else
      match parseDateDual s with
      | none => .error ⟨400, "Invalid start_date format"⟩
      | some d => .ok (some d)

/-- `POST /announcements` (router lines 65–107).  `newOid` is the `_id` the
store assigns at `insert_one`; `now` is `datetime.utcnow()`.  Returns the
HTTP outcome and the post-call state of the collection. -/
def create_announcement (st : ServiceState) (newOid : String) (now : DateTime)
    (message end_date : String) (start_date : Option String)
    (teacher_username : String) :
    Except HTTPError AnnouncementView × ServiceState :=
  if st.teachers.contains teacher_username = false then
    (.error ⟨401, "Invalid teacher credentials"⟩, st)
  else
    match parseDateDual end_date with
    | none => (.error ⟨400, "Invalid end_date format"⟩, st)
    | some end_dt =>
      match parseStartCreate start_date with
      | .error e => (.error e, st)
      | .ok start_dt =>
        let doc : AnnouncementDoc :=
          { oid := newOid
            message := message
            start_date := start_dt
            end_date := end_dt
            created_by := teacher_username
            created_at := now }
        (.ok (serialize doc), { st with announcements := st.announcements ++ [doc] })

/-- The `$set` document built by `update_announcement` (router lines
127–148): an absent field is untouched, `start_date` can be set to a
datetime or cleared to null. -/
structure UpdateSet where
  message : Option String
  end_date : Option DateTime
  start_date : Option (Option DateTime)
deriving DecidableEq, Repr

/-- The `start_date` arm of the `$set` construction (router lines 138–148):
absent leaves it out, `""` clears to null, anything else must parse. -/
def buildUpdateStart (u : UpdateSet) : Option String → Except HTTPError UpdateSet
  | none => .ok u
  | some s =>
    if s = "" then .ok { u with start_date := some none }
    else
      match parseDateDual s with
      | none => .error ⟨400, "Invalid start_date format"⟩
      | some d => .ok { u with start_date := some (some d) }

/-- Build the `$set` document, failing on an unparseable date (router lines
127–148).  `start_date = ""` clears the stored value to null. -/
def buildUpdate (message end_date start_date : Option String) :
    Except HTTPError UpdateSet :=
  let u0 : UpdateSet := ⟨message, none, none⟩
  match end_date with
  | none => buildUpdateStart u0 start_date
  | some e =>
    match parseDateDual e with
    | none => .error ⟨400, "Invalid end_date format"⟩
    | some d => buildUpdateStart { u0 with end_date := some d } start_date

/-- `update` is empty exactly when `if not update:` fires (router line 150). -/
def UpdateSet.isEmpty (u : UpdateSet) : Bool :=
  u.message == none && u.end_date == none && u.start_date == none

/-- Apply the `$set` document to a stored document. -/
def applyUpdate (u : UpdateSet) (doc : AnnouncementDoc) : AnnouncementDoc :=
  { doc with
    message := u.message.getD doc.message
    end_date := u.end_date.getD doc.end_date
    start_date := u.start_date.getD doc.start_date }

/-- `find_one({"_id": oid})`: the first document with that id. -/
def findDoc (oid : String) (l : List AnnouncementDoc) : Option AnnouncementDoc :=
  l.find? fun d => d.oid == oid

/-- `update_one({"_id": oid}, {"$set": update})`: rewrite the first matching
document, leave the rest as they are. -/
def updateFirst (oid : String) (u : UpdateSet) :
    List AnnouncementDoc → List AnnouncementDoc
  | [] => []
  | d :: ds => if d.oid == oid then applyUpdate u d :: ds else d :: updateFirst oid u ds

/-- `delete_one({"_id": oid})`: remove the first matching document. -/
def deleteFirst (oid : String) : List AnnouncementDoc → List AnnouncementDoc
  | [] => []
  | d :: ds => if d.oid == oid then ds else d :: deleteFirst oid ds

/-- `PUT /announcements/{id}` (router lines 110–158).  The unreachable case
where `find_one` returns nothing for an id `update_one` just matched would
crash `_serialize` and surface as a generic 500. -/
def update_announcement (st : ServiceState) (announcement_id : String)
    (message end_date start_date : Option String) (teacher_username : String) :
    Except HTTPError AnnouncementView × ServiceState :=
  if st.teachers.contains teacher_username = false then
    (.error ⟨401, "Invalid teacher credentials"⟩, st)
  else if isValidObjectId announcement_id = false then
    (.error ⟨400, "Invalid announcement id"⟩, st)
  else
    match buildUpdate message end_date start_date with
    | .error e => (.error e, st)
    | .ok u =>
      if u.isEmpty then (.error ⟨400, "No fields to update"⟩, st)
      else
        match findDoc announcement_id st.announcements with
        | none => (.error ⟨404, "Announcement not found"⟩, st)
        | some _ =>
          let st2 : ServiceState :=
            { st with announcements := updateFirst announcement_id u st.announcements }
          match findDoc announcement_id st2.announcements with
          | none => (.error ⟨500, "Internal Server Error"⟩, st2)
          | some doc2 => (.ok (serialize doc2), st2)

/-- `DELETE /announcements/{id}` (router lines 161–176).  The success body is
its `"message"` value. -/
def delete_announcement (st : ServiceState) (announcement_id : String)
    (teacher_username : String) :
    Except HTTPError String × ServiceState :=
  if st.teachers.contains teacher_username = false then
    (.error ⟨401, "Invalid teacher credentials"⟩, st)
  else if isValidObjectId announcement_id = false then
    (.error ⟨400, "Invalid announcement id"⟩, st)
  else
    match findDoc announcement_id st.announcements with
    | none => (.error ⟨404, "Announcement not found"⟩, st)
    | some _ =>
      (.ok "Announcement deleted",
        { st with announcements := deleteFirst announcement_id st.announcements })


/-! ## Helper lemmas: order, sorting, and the dual date parse -/

theorem endLe_total (a b : AnnouncementDoc) : endLe a b = true ∨ endLe b a = true :=
  DateTime.leb_total _ _

theorem endLe_trans {a b c : AnnouncementDoc} (h1 : endLe a b = true)
    (h2 : endLe b c = true) : endLe a c = true := by
  simp only [endLe, DateTime.leb, Nat.ble_eq] at h1 h2 ⊢
  omega

theorem mem_insertByEnd (x a : AnnouncementDoc) (l : List AnnouncementDoc) :
    a ∈ insertByEnd x l ↔ a = x ∨ a ∈ l := by
  induction l with
  | nil => simp [insertByEnd]
  | cons y ys ih =>
    simp only [insertByEnd]
    split
    · simp [List.mem_cons]
    · simp only [List.mem_cons, ih]
      tauto

theorem mem_sortByEnd (a : AnnouncementDoc) (l : List AnnouncementDoc) :
    a ∈ sortByEnd l ↔ a ∈ l := by
  induction l with
  | nil => simp [sortByEnd]
  | cons x xs ih => simp [sortByEnd, mem_insertByEnd, ih]

theorem pairwise_insertByEnd (x : AnnouncementDoc) (l : List AnnouncementDoc)
    (h : l.Pairwise fun a b => endLe a b = true) :
    (insertByEnd x l).Pairwise fun a b => endLe a b = true := by
  induction l with
  | nil => simp [insertByEnd]
  | cons y ys ih =>
    simp only [insertByEnd]
    split
    · rename_i hxy
      refine List.Pairwise.cons ?_ h
      intro b hb
      rcases List.mem_cons.mp hb with rfl | hb
      · exact hxy
      · exact endLe_trans hxy ((List.pairwise_cons.mp h).1 b hb)
    · rename_i hxy
      have hyx : endLe y x = true := by
        rcases endLe_total x y with h1 | h1
        · exact absurd h1 hxy
        · exact h1
      have h2 := List.pairwise_cons.mp h
      refine List.Pairwise.cons ?_ (ih h2.2)
      intro b hb
      rcases (mem_insertByEnd x b ys).mp hb with rfl | hb
      · exact hyx
      · exact h2.1 b hb

theorem pairwise_sortByEnd (l : List AnnouncementDoc) :
    (sortByEnd l).Pairwise fun a b => endLe a b = true := by
  induction l with
  | nil => simp [sortByEnd]
  | cons x xs ih => exact pairwise_insertByEnd x _ ih

def isoMidnightSuffix : List Char := ['T', '0', '0', ':', '0', '0', ':', '0', '0']

theorem data_T000000 : "T00:00:00".data = isoMidnightSuffix := rfl

theorem parseTimeChars_long : ∀ (l : List Char), 9 ≤ l.length → parseTimeChars l = none
  | _::_::_::_::_::_::_::_::_::_, _ => rfl
  | [], h | [_], h | [_,_], h | [_,_,_], h | [_,_,_,_], h | [_,_,_,_,_], h
  | [_,_,_,_,_,_], h | [_,_,_,_,_,_,_], h | [_,_,_,_,_,_,_,_], h => by simp at h

theorem parseDT_append : ∀ (cs : List Char),
    parseDT (cs ++ isoMidnightSuffix) = parseDateOnlyChars cs
  | [] => rfl
  | [_] => rfl
  | [_, _] => rfl
  | [_, _, _] => rfl
  | [_, _, _, _] => rfl
  | [c1, c2, c3, c4, c5] => by
      simp [parseDT, parseDateChars, parseDateOnlyChars, isoMidnightSuffix]
  | [c1, c2, c3, c4, c5, c6] => by
      simp [parseDT, parseDateChars, parseDateOnlyChars, isoMidnightSuffix]
  | [c1, c2, c3, c4, c5, c6, c7] => by
      simp [parseDT, parseDateChars, parseDateOnlyChars, isoMidnightSuffix]
  | [c1, c2, c3, c4, c5, c6, c7, c8] => by
      by_cases hsep : c5 = '-' ∧ c8 = '-'
      · cases h4 : digit4 c1 c2 c3 c4 <;> cases h6 : digit2 c6 c7 <;>
          simp +decide [parseDT, parseDateChars, parseDateOnlyChars, isoMidnightSuffix,
            hsep, h4, h6, digit2, digit?]
      · simp [parseDT, parseDateChars, parseDateOnlyChars, isoMidnightSuffix, hsep]
  | [c1, c2, c3, c4, c5, c6, c7, c8, c9] => by
      by_cases hsep : c5 = '-' ∧ c8 = '-'
      · cases h4 : digit4 c1 c2 c3 c4 <;> cases h6 : digit2 c6 c7 <;>
          cases hd : digit? c9 <;>
          simp +decide [parseDT, parseDateChars, parseDateOnlyChars, isoMidnightSuffix,
            hsep, h4, h6, hd, digit2, digit?]
      · simp [parseDT, parseDateChars, parseDateOnlyChars, isoMidnightSuffix, hsep]
  | c1 :: c2 :: c3 :: c4 :: c5 :: c6 :: c7 :: c8 :: c9 :: c10 :: rest => by
      by_cases hsep : c5 = '-' ∧ c8 = '-'
      case neg =>
        simp [parseDT, parseDateChars, parseDateOnlyChars, hsep]
      case pos =>
        cases h4 : digit4 c1 c2 c3 c4 with
        | none => simp [parseDT, parseDateChars, parseDateOnlyChars, hsep, h4]
        | some y =>
          cases h6 : digit2 c6 c7 with
          | none => simp [parseDT, parseDateChars, parseDateOnlyChars, hsep, h4, h6]
          | some m =>
            cases h9 : digit2 c9 c10 with
            | none => simp [parseDT, parseDateChars, parseDateOnlyChars, hsep, h4, h6, h9]
            | some d =>
              by_cases hr : 1 ≤ y ∧ 1 ≤ m ∧ m ≤ 12 ∧ 1 ≤ d ∧ d ≤ daysInMonth y m
              · cases rest with
                | nil =>
                  have ht : parseTimeChars ['0', '0', ':', '0', '0', ':', '0', '0'] =
                      some (0, 0, 0) := rfl
                  simp [parseDT, parseDateChars, parseDateOnlyChars, hsep,
                    h4, h6, h9, hr, finishDT, isoMidnightSuffix, ht]
                | cons r rs =>
                  simp [parseDT, parseDateChars, parseDateOnlyChars, hsep, h4, h6, h9,
                    hr, finishDT,
                    parseTimeChars_long (rs ++ isoMidnightSuffix) (by simp [isoMidnightSuffix])]
              · simp [parseDT, parseDateChars, parseDateOnlyChars, hsep, h4, h6, h9, hr]

theorem parseDT_of_dateOnly {cs : List Char} {d : DateTime}
    (h : parseDateOnlyChars cs = some d) : parseDT cs = some d := by
  unfold parseDateOnlyChars at h
  unfold parseDT
  cases hp : parseDateChars cs with
  | none => rw [hp] at h; exact absurd h (by simp)
  | some v =>
    obtain ⟨y, m, dd, rest⟩ := v
    rw [hp] at h
    cases rest with
    | nil => simpa [finishDT] using h
    | cons r rs => simp at h

theorem fromisoformat_append_midnight (s : String) :
    fromisoformat (s ++ "T00:00:00") = parseDateOnly s := by
  unfold fromisoformat parseDateOnly
  rw [String.data_append, data_T000000]
  exact parseDT_append s.data

theorem parseDateDual_isSome (s : String) :
    (parseDateDual s).isSome = ((fromisoformat s).isSome || (parseDateOnly s).isSome) := by
  unfold parseDateDual
  cases hf : fromisoformat s with
  | some d => simp
  | none =>
    simp only [Option.isSome_none, Bool.false_or]
    rw [fromisoformat_append_midnight]

theorem findDoc_updateFirst (oid : String) (u : UpdateSet) (l : List AnnouncementDoc) :
    findDoc oid (updateFirst oid u l) = (findDoc oid l).map (applyUpdate u) := by
  induction l with
  | nil => rfl
  | cons d ds ih =>
    unfold updateFirst
    by_cases h : d.oid = oid
    · simp [findDoc, List.find?, h, applyUpdate]
    · simp only [findDoc, List.find?, beq_iff_eq, h, if_false]
      have hb : (d.oid == oid) = false := by simpa using h
      have hb2 : ((applyUpdate u d).oid == oid) = false := by simpa [applyUpdate] using h
      simp only [hb, hb2]
      exact ih

theorem contains_eq_false_iff (l : List String) (a : String) :
    l.contains a = false ↔ ¬ l.contains a = true := by
  cases h : l.contains a <;> simp

/-! ## The claims -/

/-- C1: a stored announcement `A` appears in the document cursor of
`GET /announcements` at time `now` iff `A.end_date >= now` and
(`A.start_date` is null/absent or `A.start_date <= now`); the endpoint's
output is exactly that cursor, serialized. -/
theorem c1_list_active_membership (st : ServiceState) (now : DateTime) (A : AnnouncementDoc) :
    (A ∈ get_active_docs st now ↔
      A ∈ st.announcements ∧ now.leb A.end_date = true ∧
        (A.start_date = none ∨ ∃ sd, A.start_date = some sd ∧ sd.leb now = true)) ∧
    get_active_announcements st now = (get_active_docs st now).map serialize := by
  constructor
  · rw [get_active_docs, mem_sortByEnd, List.mem_filter]
    unfold isActive
    constructor
    · rintro ⟨hmem, hact⟩
      rw [Bool.and_eq_true] at hact
      refine ⟨hmem, hact.1, ?_⟩
      cases hs : A.start_date with
      | none => exact Or.inl rfl
      | some sd =>
        right
        refine ⟨sd, rfl, ?_⟩
        have h2 := hact.2
        rw [hs] at h2
        exact h2
    · rintro ⟨hmem, h1, h2⟩
      refine ⟨hmem, ?_⟩
      rw [Bool.and_eq_true]
      refine ⟨h1, ?_⟩
      rcases h2 with hnone | ⟨sd, hsd, hle⟩
      · rw [hnone]
      · rw [hsd]
        exact hle
  · rfl

/-- C8: the document cursors behind `GET /announcements` and
`GET /announcements/all` are sorted ascending by `end_date`, and each
endpoint returns exactly its cursor serialized (`list_all` when the
requester is a known teacher). -/
theorem c8_lists_sorted_by_end_date (st : ServiceState) (now : DateTime) (tu : String) :
    (get_active_docs st now).Pairwise (fun a b => endLe a b = true) ∧
    (get_all_docs st).Pairwise (fun a b => endLe a b = true) ∧
    get_active_announcements st now = (get_active_docs st now).map serialize ∧
    (st.teachers.contains tu = true →
      get_all_announcements st tu = .ok ((get_all_docs st).map serialize)) := by
  refine ⟨pairwise_sortByEnd _, pairwise_sortByEnd _, rfl, ?_⟩
  intro h
  unfold get_all_announcements
  rw [h]
  simp

/-- C8 witness: on a one-teacher, empty-collection state, `list_all`
returns an (empty, trivially sorted) 200 response. -/
theorem c8_lists_sorted_by_end_date_witness :
    ((["alice"] : List String).contains "alice" = true) ∧
    get_all_announcements ⟨["alice"], []⟩ "alice" = .ok [] :=
  ⟨by decide,
    (c8_lists_sorted_by_end_date ⟨["alice"], []⟩ ⟨2025, 1, 1, 0, 0, 0⟩ "alice").2.2.2
      (by decide)⟩

/-- C3: `create` with an unknown `teacher_username` fails with 401
"Invalid teacher credentials" and leaves the announcement collection
unchanged (no insert). -/
theorem c3_create_unknown_teacher (st : ServiceState) (newOid : String) (now : DateTime)
    (message end_date : String) (start_date : Option String) (tu : String)
    (h : st.teachers.contains tu = false) :
    create_announcement st newOid now message end_date start_date tu =
      (.error ⟨401, "Invalid teacher credentials"⟩, st) := by
  unfold create_announcement
  rw [h]
  simp

/-- C3 witness: creating as the unknown teacher "mallory" on a one-teacher
state is refused with 401 and no insert. -/
theorem c3_create_unknown_teacher_witness :
    ((["alice"] : List String).contains "mallory" = false) ∧
    create_announcement ⟨["alice"], []⟩ "0123456789abcdef01234567" ⟨2025, 1, 1, 0, 0, 0⟩
        "hi" "2099-12-31" none "mallory" =
      (.error ⟨401, "Invalid teacher credentials"⟩, ⟨["alice"], []⟩) :=
  ⟨by decide,
    c3_create_unknown_teacher ⟨["alice"], []⟩ "0123456789abcdef01234567" ⟨2025, 1, 1, 0, 0, 0⟩
      "hi" "2099-12-31" none "mallory" (by decide)⟩

/-- C5: `update` by a known teacher with a well-formed id and none of
`message`, `end_date`, `start_date` provided fails with 400
"No fields to update" and leaves every stored announcement unchanged. -/
theorem c5_update_no_fields (st : ServiceState) (id tu : String)
    (h1 : st.teachers.contains tu = true) (h2 : isValidObjectId id = true) :
    update_announcement st id none none none tu =
      (.error ⟨400, "No fields to update"⟩, st) := by
  unfold update_announcement
  rw [h1, h2]
  simp [buildUpdate, buildUpdateStart, UpdateSet.isEmpty]

/-- C5 witness: a no-field update on a valid id by a known teacher is
refused with 400 and the state is untouched. -/
theorem c5_update_no_fields_witness :
    ((["alice"] : List String).contains "alice" = true ∧
      isValidObjectId "0123456789abcdef01234567" = true) ∧
    update_announcement ⟨["alice"], []⟩ "0123456789abcdef01234567" none none none "alice" =
      (.error ⟨400, "No fields to update"⟩, ⟨["alice"], []⟩) :=
  ⟨⟨by decide, by decide⟩,
    c5_update_no_fields ⟨["alice"], []⟩ "0123456789abcdef01234567" "alice"
      (by decide) (by decide)⟩

/-- C6: `update` by a known teacher on an existing id with
`start_date = ""` and no other fields clears the stored `start_date` to
null and leaves `message`, `end_date`, `created_by`, `created_at` (and the
id) untouched; the response is the serialized post-update record. -/
theorem c6_update_clears_start_date (st : ServiceState) (id tu : String)
    (d : AnnouncementDoc)
    (h1 : st.teachers.contains tu = true) (h2 : isValidObjectId id = true)
    (h3 : findDoc id st.announcements = some d) :
    update_announcement st id none none (some "") tu =
      (.ok (serialize { d with start_date := none }),
        { st with announcements :=
            updateFirst id ⟨none, none, some none⟩ st.announcements }) ∧
    findDoc id (updateFirst id ⟨none, none, some none⟩ st.announcements) =
      some { d with start_date := none } := by
  have hfind : findDoc id (updateFirst id ⟨none, none, some none⟩ st.announcements) =
      some { d with start_date := none } := by
    rw [findDoc_updateFirst, h3]
    simp [applyUpdate]
  refine ⟨?_, hfind⟩
  unfold update_announcement
  rw [h1, h2]
  simp only [buildUpdate, buildUpdateStart, if_pos rfl]
  simp only [UpdateSet.isEmpty, h3, hfind]
  simp [hfind]

/-- C6 witness: on a one-document state, the empty-string update clears
`start_date` and keeps every other field of the document. -/
theorem c6_update_clears_start_date_witness :
    ((["alice"] : List String).contains "alice" = true ∧
      isValidObjectId "0123456789abcdef01234567" = true ∧
      findDoc "0123456789abcdef01234567"
        [⟨"0123456789abcdef01234567", "hi", some ⟨2024, 1, 1, 0, 0, 0⟩,
          ⟨2099, 12, 31, 0, 0, 0⟩, "alice", ⟨2025, 1, 1, 0, 0, 0⟩⟩] =
        some ⟨"0123456789abcdef01234567", "hi", some ⟨2024, 1, 1, 0, 0, 0⟩,
          ⟨2099, 12, 31, 0, 0, 0⟩, "alice", ⟨2025, 1, 1, 0, 0, 0⟩⟩) ∧
    update_announcement
        ⟨["alice"],
          [⟨"0123456789abcdef01234567", "hi", some ⟨2024, 1, 1, 0, 0, 0⟩,
            ⟨2099, 12, 31, 0, 0, 0⟩, "alice", ⟨2025, 1, 1, 0, 0, 0⟩⟩]⟩
        "0123456789abcdef01234567" none none (some "") "alice" =
      (.ok (serialize ⟨"0123456789abcdef01234567", "hi", none,
          ⟨2099, 12, 31, 0, 0, 0⟩, "alice", ⟨2025, 1, 1, 0, 0, 0⟩⟩),
        ⟨["alice"],
          [⟨"0123456789abcdef01234567", "hi", none,
            ⟨2099, 12, 31, 0, 0, 0⟩, "alice", ⟨2025, 1, 1, 0, 0, 0⟩⟩]⟩) :=
  ⟨⟨by decide, by decide, by decide⟩,
    (c6_update_clears_start_date
      ⟨["alice"],
        [⟨"0123456789abcdef01234567", "hi", some ⟨2024, 1, 1, 0, 0, 0⟩,
          ⟨2099, 12, 31, 0, 0, 0⟩, "alice", ⟨2025, 1, 1, 0, 0, 0⟩⟩]⟩
      "0123456789abcdef01234567" "alice"
      ⟨"0123456789abcdef01234567", "hi", some ⟨2024, 1, 1, 0, 0, 0⟩,
        ⟨2099, 12, 31, 0, 0, 0⟩, "alice", ⟨2025, 1, 1, 0, 0, 0⟩⟩
      (by decide) (by decide) (by decide)).1⟩

/-- C4 counterexample: an `update` by a known teacher with a well-formed
24-hex id that matches no record and with no fields provided fails with 400
"No fields to update", not with 404 as the claim states for every such
call. -/
theorem c4_counterexample :
    update_announcement ⟨["alice"], []⟩ "0123456789abcdef01234567" none none none "alice" =
      (.error ⟨400, "No fields to update"⟩, ⟨["alice"], []⟩) ∧
    (update_announcement ⟨["alice"], []⟩ "0123456789abcdef01234567"
        none none none "alice").1 ≠
      .error ⟨404, "Announcement not found"⟩ := by
  decide

/-- C4 (amended): for `update` and `delete` by a known teacher, a malformed
id fails with 400 "Invalid announcement id" (before any not-found check);
a well-formed id matching no record makes `delete` fail with 404, and makes
`update` fail with 404 provided its date fields are valid and at least one
field is provided (otherwise the 400 field errors take precedence). -/
theorem c4_id_validation (st : ServiceState) (id tu : String) (m e s : Option String)
    (h1 : st.teachers.contains tu = true) :
    (isValidObjectId id = false →
      update_announcement st id m e s tu = (.error ⟨400, "Invalid announcement id"⟩, st) ∧
      delete_announcement st id tu = (.error ⟨400, "Invalid announcement id"⟩, st)) ∧
    (isValidObjectId id = true → findDoc id st.announcements = none →
      delete_announcement st id tu = (.error ⟨404, "Announcement not found"⟩, st) ∧
      ∀ u, buildUpdate m e s = .ok u → u.isEmpty = false →
        update_announcement st id m e s tu = (.error ⟨404, "Announcement not found"⟩, st)) := by
  constructor
  · intro hbad
    constructor
    · unfold update_announcement
      rw [h1, hbad]
      simp
    · unfold delete_announcement
      rw [h1, hbad]
      simp
  · intro hgood hnone
    constructor
    · unfold delete_announcement
      rw [h1, hgood, hnone]
      simp
    · intro u hu hne
      unfold update_announcement
      rw [h1, hgood, hu, hnone]
      simp [hne]

/-- C4 witness: on a one-teacher empty state, the malformed id "zzz" is
refused with 400 by both `update` and `delete`, and `delete` on a
well-formed unknown id fails with 404. -/
theorem c4_id_validation_witness :
    ((["alice"] : List String).contains "alice" = true) ∧
    (isValidObjectId "zzz" = false →
      update_announcement ⟨["alice"], []⟩ "zzz" (some "new") none none "alice" =
        (.error ⟨400, "Invalid announcement id"⟩, ⟨["alice"], []⟩) ∧
      delete_announcement ⟨["alice"], []⟩ "zzz" "alice" =
        (.error ⟨400, "Invalid announcement id"⟩, ⟨["alice"], []⟩)) ∧
    (isValidObjectId "0123456789abcdef01234567" = true →
      findDoc "0123456789abcdef01234567" ([] : List AnnouncementDoc) = none →
      delete_announcement ⟨["alice"], []⟩ "0123456789abcdef01234567" "alice" =
        (.error ⟨404, "Announcement not found"⟩, ⟨["alice"], []⟩) ∧
      ∀ u, buildUpdate (some "new") none none = .ok u → u.isEmpty = false →
        update_announcement ⟨["alice"], []⟩ "0123456789abcdef01234567"
            (some "new") none none "alice" =
          (.error ⟨404, "Announcement not found"⟩, ⟨["alice"], []⟩)) :=
  ⟨by decide,
    (c4_id_validation ⟨["alice"], []⟩ "zzz" "alice" (some "new") none none (by decide)).1,
    (c4_id_validation ⟨["alice"], []⟩ "0123456789abcdef01234567" "alice"
      (some "new") none none (by decide)).2⟩

/-- C2: for a known teacher, `create` accepts the `end_date` string iff it
parses as an ISO date-time or as a bare `YYYY-MM-DD` calendar date;
"2099-12-31" stores midnight of that date, "2099-12-31T10:00:00" stores
that exact time, and a string that parses neither way fails with 400
"Invalid end_date format". -/
theorem c2_create_end_date_parsing (st : ServiceState) (newOid : String) (now : DateTime)
    (tu : String) (h : st.teachers.contains tu = true) :
    (∀ m e, (∃ r, (create_announcement st newOid now m e none tu).1 = .ok r) ↔
        ((fromisoformat e).isSome = true ∨ (parseDateOnly e).isSome = true)) ∧
    (∀ m, create_announcement st newOid now m "2099-12-31" none tu =
        (.ok (serialize ⟨newOid, m, none, ⟨2099, 12, 31, 0, 0, 0⟩, tu, now⟩),
          { st with announcements :=
              st.announcements ++ [⟨newOid, m, none, ⟨2099, 12, 31, 0, 0, 0⟩, tu, now⟩] })) ∧
    (∀ m, create_announcement st newOid now m "2099-12-31T10:00:00" none tu =
        (.ok (serialize ⟨newOid, m, none, ⟨2099, 12, 31, 10, 0, 0⟩, tu, now⟩),
          { st with announcements :=
              st.announcements ++ [⟨newOid, m, none, ⟨2099, 12, 31, 10, 0, 0⟩, tu, now⟩] })) ∧
    (∀ m e sd, fromisoformat e = none → parseDateOnly e = none →
      create_announcement st newOid now m e sd tu =
        (.error ⟨400, "Invalid end_date format"⟩, st)) := by
  refine ⟨?_, ?_, ?_, ?_⟩
  · intro m e
    unfold create_announcement
    rw [h]
    have hs : (parseDateDual e).isSome =
        ((fromisoformat e).isSome || (parseDateOnly e).isSome) := parseDateDual_isSome e
    cases hd : parseDateDual e with
    | none =>
      rw [hd] at hs
      simp only [reduceCtorEq, exists_const, if_false]
      constructor
      · intro hfalse
        simp at hfalse
      · intro hor
        rcases hor with h1 | h1 <;> simp [h1] at hs
    | some ed =>
      rw [hd] at hs
      simp only [parseStartCreate, if_false]
      constructor
      · intro _
        rcases Bool.or_eq_true _ _ |>.mp hs.symm with h1 | h1
        · exact Or.inl h1
        · exact Or.inr h1
      · intro _
        exact ⟨serialize ⟨newOid, m, none, ed, tu, now⟩, by simp⟩
  · intro m
    have hd : parseDateDual "2099-12-31" = some ⟨2099, 12, 31, 0, 0, 0⟩ := by decide
    unfold create_announcement
    rw [h, hd]
    rfl
  · intro m
    have hd : parseDateDual "2099-12-31T10:00:00" = some ⟨2099, 12, 31, 10, 0, 0⟩ := by
      decide
    unfold create_announcement
    rw [h, hd]
    rfl
  · intro m e sd h1 h2
    have hd : parseDateDual e = none := by
      unfold parseDateDual
      rw [h1, fromisoformat_append_midnight, h2]
    unfold create_announcement
    rw [h, hd]
    simp

/-- C2 witness: on a one-teacher state, `create` with the bare date
"2099-12-31" is accepted. -/
theorem c2_create_end_date_parsing_witness :
    ((["alice"] : List String).contains "alice" = true) ∧
    ∃ r, (create_announcement ⟨["alice"], []⟩ "0123456789abcdef01234567"
        ⟨2025, 1, 1, 0, 0, 0⟩ "hello" "2099-12-31" none "alice").1 = .ok r :=
  ⟨by decide,
    ((c2_create_end_date_parsing ⟨["alice"], []⟩ "0123456789abcdef01234567"
        ⟨2025, 1, 1, 0, 0, 0⟩ "alice" (by decide)).1 "hello" "2099-12-31").mpr
      (Or.inl (by decide))⟩

theorem buildUpdateStart_message {u0 : UpdateSet} {s : Option String} {u : UpdateSet}
    (h : buildUpdateStart u0 s = .ok u) : u.message = u0.message := by
  cases s with
  | none =>
    simp only [buildUpdateStart] at h
    rw [← Except.ok.inj h]
  | some ss =>
    simp only [buildUpdateStart] at h
    by_cases he : ss = ""
    · rw [if_pos he] at h
      rw [← Except.ok.inj h]
    · rw [if_neg he] at h
      cases hp : parseDateDual ss with
      | none =>
        rw [hp] at h
        exact absurd h (by simp)
      | some d =>
        rw [hp] at h
        rw [← Except.ok.inj h]

theorem buildUpdate_message {m e s : Option String} {u : UpdateSet}
    (h : buildUpdate m e s = .ok u) : u.message = m := by
  cases e with
  | none => exact buildUpdateStart_message h
  | some es =>
    simp only [buildUpdate] at h
    cases hp : parseDateDual es with
    | none =>
      rw [hp] at h
      exact absurd h (by simp)
    | some d =>
      rw [hp] at h
      exact buildUpdateStart_message h

/-- C9: a successful `create` by a known teacher inserts exactly one new
document carrying the request's message, parsed start/end dates,
`created_by` = the teacher and `created_at` = now, under the freshly
assigned id (distinct from every pre-existing id), and an immediately
following `list_all` by the same teacher includes that document,
serialized. -/
theorem c9_create_then_list_all (st : ServiceState) (newOid : String) (now : DateTime)
    (m e : String) (sd : Option String) (tu : String) (ed : DateTime)
    (sdt : Option DateTime)
    (h1 : st.teachers.contains tu = true)
    (h2 : parseDateDual e = some ed)
    (h3 : parseStartCreate sd = .ok sdt)
    (h4 : ∀ d ∈ st.announcements, d.oid ≠ newOid) :
    ∃ doc st2,
      create_announcement st newOid now m e sd tu = (.ok (serialize doc), st2) ∧
      doc.oid = newOid ∧ doc.message = m ∧ doc.start_date = sdt ∧ doc.end_date = ed ∧
      doc.created_by = tu ∧ doc.created_at = now ∧
      st2.announcements = st.announcements ++ [doc] ∧
      (∀ d ∈ st.announcements, d.oid ≠ doc.oid) ∧
      ∃ views, get_all_announcements st2 tu = .ok views ∧ serialize doc ∈ views := by
  refine ⟨⟨newOid, m, sdt, ed, tu, now⟩,
    { st with announcements := st.announcements ++ [⟨newOid, m, sdt, ed, tu, now⟩] },
    ?_, rfl, rfl, rfl, rfl, rfl, rfl, rfl, h4, ?_⟩
  · unfold create_announcement
    rw [h1, h2, h3]
    rfl
  · refine ⟨(get_all_docs { st with
      announcements := st.announcements ++ [⟨newOid, m, sdt, ed, tu, now⟩] }).map serialize,
      ?_, ?_⟩
    · have hc : ({ st with
          announcements := st.announcements ++ [⟨newOid, m, sdt, ed, tu, now⟩] } :
            ServiceState).teachers.contains tu = true := h1
      unfold get_all_announcements
      rw [hc]
      rfl
    · refine List.mem_map_of_mem serialize ?_
      unfold get_all_docs
      rw [mem_sortByEnd]
      exact List.mem_append.mpr (Or.inr (List.mem_singleton.mpr rfl))

/-- C9 witness: a concrete create on a one-teacher empty state followed by
`list_all` shows the inserted record. -/
theorem c9_create_then_list_all_witness :
    ((["alice"] : List String).contains "alice" = true ∧
      parseDateDual "2099-12-31" = some ⟨2099, 12, 31, 0, 0, 0⟩ ∧
      parseStartCreate none = .ok none ∧
      (∀ d ∈ ([] : List AnnouncementDoc), d.oid ≠ "0123456789abcdef01234567")) ∧
    ∃ doc st2,
      create_announcement ⟨["alice"], []⟩ "0123456789abcdef01234567" ⟨2025, 1, 1, 0, 0, 0⟩
          "hello" "2099-12-31" none "alice" = (.ok (serialize doc), st2) ∧
      doc.oid = "0123456789abcdef01234567" ∧ doc.message = "hello" ∧
      doc.start_date = none ∧ doc.end_date = ⟨2099, 12, 31, 0, 0, 0⟩ ∧
      doc.created_by = "alice" ∧ doc.created_at = ⟨2025, 1, 1, 0, 0, 0⟩ ∧
      st2.announcements = ([] : List AnnouncementDoc) ++ [doc] ∧
      (∀ d ∈ ([] : List AnnouncementDoc), d.oid ≠ doc.oid) ∧
      ∃ views, get_all_announcements st2 "alice" = .ok views ∧ serialize doc ∈ views :=
  ⟨⟨by decide, by decide, rfl, by simp⟩,
    c9_create_then_list_all ⟨["alice"], []⟩ "0123456789abcdef01234567" ⟨2025, 1, 1, 0, 0, 0⟩
      "hello" "2099-12-31" none "alice" ⟨2099, 12, 31, 0, 0, 0⟩ none
      (by decide) (by decide) rfl (by simp)⟩

/-- C10: `create` treats `start_date = ""` exactly like an absent
`start_date` (Python falsiness of the empty string): the two calls are
literally equal, and for a known teacher with a parseable `end_date` the
call succeeds and stores a null `start_date`. -/
theorem c10_create_empty_start_date (st : ServiceState) (newOid : String) (now : DateTime)
    (m e tu : String) :
    create_announcement st newOid now m e (some "") tu =
      create_announcement st newOid now m e none tu ∧
    (∀ ed, st.teachers.contains tu = true → parseDateDual e = some ed →
      create_announcement st newOid now m e (some "") tu =
        (.ok (serialize ⟨newOid, m, none, ed, tu, now⟩),
          { st with announcements := st.announcements ++ [⟨newOid, m, none, ed, tu, now⟩] })) := by
  constructor
  · unfold create_announcement
    rw [show parseStartCreate (some "") = parseStartCreate none from rfl]
  · intro ed h1 h2
    unfold create_announcement
    rw [h1, h2]
    rfl

/-- C10 witness: with `start_date = ""` the create succeeds and the stored
`start_date` is null. -/
theorem c10_create_empty_start_date_witness :
    ((["alice"] : List String).contains "alice" = true ∧
      parseDateDual "2099-12-31" = some ⟨2099, 12, 31, 0, 0, 0⟩) ∧
    create_announcement ⟨["alice"], []⟩ "0123456789abcdef01234567" ⟨2025, 1, 1, 0, 0, 0⟩
        "hello" "2099-12-31" (some "") "alice" =
      (.ok (serialize ⟨"0123456789abcdef01234567", "hello", none, ⟨2099, 12, 31, 0, 0, 0⟩,
          "alice", ⟨2025, 1, 1, 0, 0, 0⟩⟩),
        ⟨["alice"], [⟨"0123456789abcdef01234567", "hello", none, ⟨2099, 12, 31, 0, 0, 0⟩,
          "alice", ⟨2025, 1, 1, 0, 0, 0⟩⟩]⟩) :=
  ⟨⟨by decide, by decide⟩,
    (c10_create_empty_start_date ⟨["alice"], []⟩ "0123456789abcdef01234567"
        ⟨2025, 1, 1, 0, 0, 0⟩ "hello" "2099-12-31" "alice").2
      ⟨2099, 12, 31, 0, 0, 0⟩ (by decide) (by decide)⟩

/-- C7 counterexample: `create` by a known teacher with `message = ""`
succeeds and stores an announcement whose message is empty, so the
non-empty-message invariant claimed for stored announcements does not
hold. -/
theorem c7_counterexample :
    (create_announcement ⟨["alice"], []⟩ "0123456789abcdef01234567" ⟨2025, 1, 1, 0, 0, 0⟩
        "" "2099-12-31" none "alice").1 =
      .ok (serialize ⟨"0123456789abcdef01234567", "", none, ⟨2099, 12, 31, 0, 0, 0⟩,
        "alice", ⟨2025, 1, 1, 0, 0, 0⟩⟩) ∧
    (create_announcement ⟨["alice"], []⟩ "0123456789abcdef01234567" ⟨2025, 1, 1, 0, 0, 0⟩
        "" "2099-12-31" none "alice").2.announcements =
      [⟨"0123456789abcdef01234567", "", none, ⟨2099, 12, 31, 0, 0, 0⟩,
        "alice", ⟨2025, 1, 1, 0, 0, 0⟩⟩] := by
  decide

/-- C7 (amended): `create` and `update` store the provided message verbatim
— a successful create inserts a document whose message is exactly the
request's message, and a successful update that provided a message stores
exactly that message — but neither operation enforces non-emptiness, so a
stored message may be the empty string. -/
theorem c7_message_stored_verbatim (st : ServiceState) (newOid : String) (now : DateTime)
    (m e : String) (sd : Option String) (id tu : String) (eo so : Option String)
    (h : st.teachers.contains tu = true) :
    (∀ v st2, create_announcement st newOid now m e sd tu = (.ok v, st2) →
      v.message = m ∧
        ∃ doc, st2.announcements = st.announcements ++ [doc] ∧ doc.message = m) ∧
    (∀ v st2, update_announcement st id (some m) eo so tu = (.ok v, st2) →
      v.message = m) := by
  constructor
  · intro v st2 hok
    unfold create_announcement at hok
    rw [h] at hok
    simp only [Bool.true_eq_false, if_false] at hok
    cases hd : parseDateDual e with
    | none =>
      rw [hd] at hok
      exact absurd (congrArg Prod.fst hok) (by simp)
    | some ed =>
      rw [hd] at hok
      cases hs : parseStartCreate sd with
      | error err =>
        rw [hs] at hok
        exact absurd (congrArg Prod.fst hok) (by simp)
      | ok sdt =>
        rw [hs] at hok
        have hv := congrArg Prod.fst hok
        have hst := congrArg Prod.snd hok
        simp only at hv hst
        refine ⟨?_, ⟨⟨newOid, m, sdt, ed, tu, now⟩, ?_, rfl⟩⟩
        · rw [← Except.ok.inj hv]
          rfl
        · rw [← hst]
  · intro v st2 hok
    unfold update_announcement at hok
    rw [h] at hok
    simp only [Bool.true_eq_false, if_false] at hok
    split at hok
    · exact absurd (congrArg Prod.fst hok) (by simp)
    · split at hok
      · exact absurd (congrArg Prod.fst hok) (by simp)
      · rename_i u hb
        split at hok
        · exact absurd (congrArg Prod.fst hok) (by simp)
        · split at hok
          · exact absurd (congrArg Prod.fst hok) (by simp)
          · split at hok
            · exact absurd (congrArg Prod.fst hok) (by simp)
            · rename_i doc2 hf2
              have hv2 : serialize doc2 = v := Except.ok.inj (congrArg Prod.fst hok)
              rw [findDoc_updateFirst] at hf2
              obtain ⟨d0, hd0, hd2⟩ := Option.map_eq_some'.mp hf2
              have hm : u.message = some m := buildUpdate_message hb
              rw [← hv2, ← hd2]
              simp [serialize, applyUpdate, hm]

/-- C7 witness: the verbatim-storage theorem applied to a concrete create
whose message is empty. -/
theorem c7_message_stored_verbatim_witness :
    ((["alice"] : List String).contains "alice" = true) ∧
    ((serialize ⟨"0123456789abcdef01234567", "", none, ⟨2099, 12, 31, 0, 0, 0⟩,
        "alice", ⟨2025, 1, 1, 0, 0, 0⟩⟩).message = "" ∧
      ∃ doc, (⟨["alice"], [⟨"0123456789abcdef01234567", "", none, ⟨2099, 12, 31, 0, 0, 0⟩,
          "alice", ⟨2025, 1, 1, 0, 0, 0⟩⟩]⟩ : ServiceState).announcements =
        ([] : List AnnouncementDoc) ++ [doc] ∧ doc.message = "") :=
  ⟨by decide,
    (c7_message_stored_verbatim ⟨["alice"], []⟩ "0123456789abcdef01234567"
        ⟨2025, 1, 1, 0, 0, 0⟩ "" "2099-12-31" none "0123456789abcdef01234567" "alice"
        none none (by decide)).1
      (serialize ⟨"0123456789abcdef01234567", "", none, ⟨2099, 12, 31, 0, 0, 0⟩,
        "alice", ⟨2025, 1, 1, 0, 0, 0⟩⟩)
      ⟨["alice"], [⟨"0123456789abcdef01234567", "", none, ⟨2099, 12, 31, 0, 0, 0⟩,
        "alice", ⟨2025, 1, 1, 0, 0, 0⟩⟩]⟩
      (by decide)⟩
